import Mathlib

/-!
Verification of the Disney dining reservation collection scripts.

The repository consists of near-duplicate iterations of one Node.js script
that polls a live-status API for a fixed set of facilities and appends one
row per facility to a year-scoped Google Sheet.  Two variants matter here:

* `src/unnamed/part_000` — the ThemeParks.wiki variant: one fetch of the
  Magic Kingdom live-data endpoint, a `Map` from entity id to live entry,
  and per-facility normalization (STANDBY queue, top-level status, UNKNOWN
  fallback, total API_ERROR fallback).  Embedded in namespace
  `DisneyReporter`.
* the first script inside `src/disney_reporter.js` — the `themeparks`
  library variant: one `GetDestinationData()` call per facility, pushing a
  row only when the facility is found.  Embedded in namespace
  `DisneyReporter.DR`.

JavaScript values that may be absent are embedded as `Option`; the
JavaScript `x || d` idiom on numbers and strings is embedded by `jsOrNum`
and `jsOrStr` (`0`, `""`, `null`/`undefined` are falsy; every other number,
including negative ones, is truthy).
-/

namespace DisneyReporter

/-- One entry of the `GRAND_FLORIDIAN_FACILITIES` configuration array
(`src/unnamed/part_000` lines 21-27): a display name and an entity id. -/
structure FacilityRef where
  name : String
  id : String
  deriving DecidableEq, Repr

/-- The fixed facility catalog `GRAND_FLORIDIAN_FACILITIES` of
`src/unnamed/part_000` lines 21-27 (identical in every variant). -/
def GRAND_FLORIDIAN_FACILITIES : List FacilityRef :=
  [{ name := "Grand Floridian Cafe", id := "80010375" },
   { name := "Narcoossee\x27s", id := "80010381" },
   { name := "Citricos", id := "80010377" },
   { name := "Gasparilla Island Grill", id := "80010379" },
   { name := "Space Mountain (MK)", id := "16975815" }]

/-- One record produced by `getWaitTimeData` (`src/unnamed/part_000`
lines 124-129 and 137-142): the spec calls this a FacilityStatus. -/
structure FacilityStatus where
  FacilityID : String
  Name : String
  WaitTimeMinutes : Int
  WaitTimeStatus : String
  deriving DecidableEq, Repr

/-- The `STANDBY` sub-record of a live entry's `queue` field, as read by
`src/unnamed/part_000` lines 116-117: an optional `waitTime` number and an
optional `status` string. -/
structure StandbyRec where
  waitTime : Option Int
  status : Option String
  deriving DecidableEq, Repr

/-- The `queue` field of a live entry; the code only reads its `STANDBY`
member (`src/unnamed/part_000` line 114). -/
structure QueueRec where
  STANDBY : Option StandbyRec
  deriving DecidableEq, Repr

/-- One element of the upstream response's `liveData` array, as read by
`src/unnamed/part_000` lines 101-119: an `entityId`, an optional `queue`
object and an optional top-level `status` string. -/
structure LiveEntry where
  entityId : String
  queue : Option QueueRec
  status : Option String
  deriving DecidableEq, Repr

/-- The parsed JSON body of a successful response; the code only reads its
optional `liveData` array (`src/unnamed/part_000` line 100). -/
structure ApiBody where
  liveData : Option (List LiveEntry)
  deriving DecidableEq, Repr

/-- Outcome of the single `fetch` call of `src/unnamed/part_000`
lines 93-97: the transport may reject, or a response arrives with an `ok`
flag (true exactly for 2xx) and a body whose JSON parse may fail
(`jsonBody = none`). -/
inductive FetchResult where
  | transportError
  | response (ok : Bool) (jsonBody : Option ApiBody)
  deriving DecidableEq, Repr

/-- JavaScript `v || d` for an optional number `v`: `null`/`undefined` and
`0` are falsy and give `d`; every other number, negative ones included, is
truthy and is returned unchanged. -/
def jsOrNum (v : Option Int) (d : Int) : Int :=
  match v with
  | none => d
  | some x => if x = 0 then d else x

/-- JavaScript `v || d` for an optional string `v`: `null`/`undefined` and
the empty string are falsy and give `d`; any other string is returned. -/
def jsOrStr (v : Option String) (d : String) : String :=
  match v with
  | none => d
  | some s => if s = "" then d else s

/-- The `liveDataMap` lookup of `src/unnamed/part_000` lines 99-104 and
109: `data.liveData.forEach(item => map.set(item.entityId, item))` followed
by `map.get(id)`, so when an entity id repeats the last entry wins. -/
def liveDataLookup (entries : List LiveEntry) (eid : String) : Option LiveEntry :=
  (entries.filter (fun e => e.entityId = eid)).getLast?

/-- The per-facility normalization, loop body of `src/unnamed/part_000`
lines 108-129: defaults `waitTime = 0`, `status = UNKNOWN`; if the entry is
found and has a truthy `queue.STANDBY`, take `STANDBY.waitTime || 0` and
`STANDBY.status || OPERATING`; else if the entry is found and has a truthy
top-level `status`, take that status with wait 0. -/
def statusForFacility (entries : List LiveEntry) (f : FacilityRef) : FacilityStatus :=
  match liveDataLookup entries f.id with
  | none =>
      { FacilityID := f.id, Name := f.name, WaitTimeMinutes := 0, WaitTimeStatus := "UNKNOWN" }
  | some entry =>
      match entry.queue.bind QueueRec.STANDBY with
      | some sb =>
          { FacilityID := f.id, Name := f.name,
            WaitTimeMinutes := jsOrNum sb.waitTime 0,
            WaitTimeStatus := jsOrStr sb.status "OPERATING" }
      | none =>
          match entry.status with
          | some s =>
              if s = "" then
                { FacilityID := f.id, Name := f.name,
                  WaitTimeMinutes := 0, WaitTimeStatus := "UNKNOWN" }
              else
                { FacilityID := f.id, Name := f.name,
                  WaitTimeMinutes := 0, WaitTimeStatus := s }
          | none =>
              { FacilityID := f.id, Name := f.name,
                WaitTimeMinutes := 0, WaitTimeStatus := "UNKNOWN" }

/-- The catch branch of `src/unnamed/part_000` lines 132-144: one row per
catalog entry with wait 0 and the `API_ERROR` sentinel (the spec's
SOURCE_ERROR). -/
def errorRows (catalog : List FacilityRef) : List FacilityStatus :=
  catalog.map (fun f =>
    { FacilityID := f.id, Name := f.name, WaitTimeMinutes := 0, WaitTimeStatus := "API_ERROR" })

/-- The function `getWaitTimeData` of `src/unnamed/part_000` lines 86-146
(the spec's `fetchStatuses`), parameterized by the catalog it iterates and
by the outcome of its single fetch.  A transport rejection, a non-2xx
response (the code throws on `!response.ok`) and a body parse failure all
land in the catch branch `errorRows`; on success the catalog is mapped
through `statusForFacility` over the (possibly absent) `liveData` array. -/
def getWaitTimeData (catalog : List FacilityRef) (r : FetchResult) : List FacilityStatus :=
  match r with
  | FetchResult.transportError => errorRows catalog
  | FetchResult.response ok body =>
      if ok then
        match body with
        | some data => catalog.map (statusForFacility (data.liveData.getD []))
        | none => errorRows catalog
      else errorRows catalog

namespace DR

/-- The `waitTime` sub-record of a facility entry, as read by the first
script in `src/disney_reporter.js` lines 116-117: an optional
`activeWaitTime` number and an optional `status` string. -/
structure WaitTimeRec where
  activeWaitTime : Option Int
  status : Option String
  deriving DecidableEq, Repr

/-- One element of `destinationData.facilities`, as read by
`src/disney_reporter.js` line 113: an `id` and an optional `waitTime`
record. -/
structure FacilityEntry where
  id : String
  waitTime : Option WaitTimeRec
  deriving DecidableEq, Repr

/-- Outcome of one `WDW.GetDestinationData()` call in the per-facility loop
of `src/disney_reporter.js` lines 108-139: either the awaited call threw, or
it returned a `facilities` array. -/
inductive FetchOutcome where
  | err
  | ok (facilities : List FacilityEntry)
  deriving DecidableEq, Repr

/-- One record pushed by the loop of `src/disney_reporter.js` lines 121-137.
Its `WaitTimeStatus` is `Option String` because line 117 copies
`facilityEntry.waitTime.status` without a fallback, so the field can be the
JavaScript `undefined`. -/
structure Status where
  FacilityID : String
  Name : String
  WaitTimeMinutes : Int
  WaitTimeStatus : Option String
  deriving DecidableEq, Repr

/-- Loop body of `src/disney_reporter.js` lines 108-139 for one facility:
on a throw, push an ERROR row; on success, `facilities.find` (first match)
the facility id; when found, push the normalized row; when not found, only
warn — nothing is pushed, so the returned list is empty. -/
def facilityResults (f : FacilityRef) (o : FetchOutcome) : List Status :=
  match o with
  | FetchOutcome.err =>
      [{ FacilityID := f.id, Name := f.name, WaitTimeMinutes := 0,
         WaitTimeStatus := some "ERROR" }]
  | FetchOutcome.ok facilities =>
      match facilities.find? (fun e => e.id = f.id) with
      | some entry =>
          match entry.waitTime with
          | some w =>
              [{ FacilityID := f.id, Name := f.name,
                 WaitTimeMinutes := jsOrNum w.activeWaitTime 0,
                 WaitTimeStatus := w.status }]
          | none =>
              [{ FacilityID := f.id, Name := f.name, WaitTimeMinutes := 0,
                 WaitTimeStatus := some "UNKNOWN" }]
      | none => []

/-- The function `getWaitTimeData` of the first script in
`src/disney_reporter.js` lines 92-141, parameterized by whether the
`Themeparks.WaltDisneyWorld` class is available (line 96; when it is not,
line 101 throws a TypeError that escapes to the caller) and by the outcome
of each per-facility `GetDestinationData()` call. -/
def getWaitTimeData (classAvailable : Bool) (catalog : List FacilityRef)
    (fetchOf : FacilityRef → FetchOutcome) : Except String (List Status) :=
  if classAvailable then
    Except.ok (catalog.foldr (fun f acc => facilityResults f (fetchOf f) ++ acc) [])
  else
    Except.error "Could not find Themeparks.WaltDisneyWorld class. The installed version is incompatible or the project structure is incorrect."

end DR

/-- The error message of `src/unnamed/part_000` lines 159-161 (a template
literal spanning three source lines), naming the unprovisioned year. -/
def fatalNoYearMsg (year : String) : String :=
  "FATAL ERROR: No Sheet ID found for current year (" ++ year ++ "). \n            Please manually create the Google Sheet for this year and update the \n            YEARLY_SHEET_IDS secret in GitHub."

/-- Property lookup `YEARLY_SHEET_IDS_MAP[year]` on the parsed JSON object:
JSON object keys are unique, so the association list is looked up by first
match. -/
def lookupYear (m : List (String × String)) (y : String) : Option String :=
  (m.find? (fun p => p.1 = y)).map Prod.snd

/-- Result of the target-resolution prologue of `runReport`. -/
inductive ResolveOutcome where
  | missingMapping
  | noEntryForYear (msg : String)
  | resolved (sheetId : String)
  deriving DecidableEq, Repr

/-- The ledger-target resolution of `src/unnamed/part_000` lines 151-165
(the spec's `resolveTarget`): if the parsed mapping is falsy (env var
missing or JSON.parse failed, lines 30-39) return early; if
`YEARLY_SHEET_IDS_MAP[currentYear]` is falsy (key absent, or present with a
falsy value such as the empty string) print the fatal message naming the
year and return early; otherwise assign `CURRENT_SHEET_ID` the mapped
value. -/
def resolveTarget (m : Option (List (String × String))) (year : String) : ResolveOutcome :=
  match m with
  | none => ResolveOutcome.missingMapping
  | some mp =>
      match lookupYear mp year with
      | none => ResolveOutcome.noEntryForYear (fatalNoYearMsg year)
      | some s =>
          if s = "" then ResolveOutcome.noEntryForYear (fatalNoYearMsg year)
          else ResolveOutcome.resolved s

/-- One row as inserted into the sheet by `logDataToSheet`
(`src/unnamed/part_000` lines 66-73). -/
structure LedgerRow where
  DateTime : String
  FacilityID : String
  Name : String
  WaitTimeMinutes : Int
  WaitTimeStatus : String
  ReservationAvailability : String
  deriving DecidableEq, Repr

/-- The row mapping of `src/unnamed/part_000` lines 66-73: each status maps
to a sheet row with the current timestamp and a constant reservation
placeholder. -/
def toLedgerRow (now : String) (d : FacilityStatus) : LedgerRow :=
  { DateTime := now,
    FacilityID := d.FacilityID,
    Name := d.Name,
    WaitTimeMinutes := d.WaitTimeMinutes,
    WaitTimeStatus := d.WaitTimeStatus,
    ReservationAvailability := "N/A - Check Dining API Manually" }

/-- The insertion loop of `src/unnamed/part_000` lines 77-79:
`for (const row of dataToInsert) await db.insert(row)`.  Modelled from the
spec: `db.insert` belongs to the `google-sheet-db` dependency, absent from
src/; per spec section 4.3 step 3 an insert appends its row as a new
trailing row.  The oracle `ok k` tells whether the k-th insert call
succeeds; a failed insert throws, which aborts the loop — the sheet keeps
the rows already appended and the index of the failed call is reported. -/
def insertLoop (ok : Nat → Bool) : Nat → List LedgerRow → List LedgerRow → List LedgerRow × Option Nat
  | _, sheet, [] => (sheet, none)
  | k, sheet, r :: rs =>
      if ok k then insertLoop ok (k + 1) (sheet ++ [r]) rs
      else (sheet, some k)

/-- The function `logDataToSheet` of `src/unnamed/part_000` lines 62-81
(the spec's `appendRows`): when `getSheetInstance` returned null
(`dbAvailable = false`) it returns without touching the sheet; otherwise it
maps the statuses to rows and inserts them one by one in order, a failed
insert aborting the remaining rows. -/
def logDataToSheet (dbAvailable : Bool) (ok : Nat → Bool) (now : String)
    (sheet : List LedgerRow) (facilitiesData : List FacilityStatus) :
    List LedgerRow × Option Nat :=
  if dbAvailable then insertLoop ok 0 sheet (facilitiesData.map (toLedgerRow now))
  else (sheet, none)

/-- Observable trace of one `runReport` invocation: how many upstream
fetches were issued, the final sheet contents, and the process exit
status.  The script never calls `process.exit` and `runReport` handles
every error path (early returns at lines 151-163, the try/catch at
lines 169-174), so its promise never rejects and the node process always
exits with status 0. -/
structure RunTrace where
  fetchCalls : Nat
  sheet : List LedgerRow
  exitCode : Nat
  deriving Repr

/-- The function `runReport` of `src/unnamed/part_000` lines 150-175 plus
the process exit behavior: resolve the target from the parsed mapping and
the current year; on either failure return before any fetch or write; on
success perform the single fetch of `getWaitTimeData` and then
`logDataToSheet`.  All error paths only `console.error` and return, so the
exit code is 0 in every case. -/
def runReport (m : Option (List (String × String))) (year : String)
    (r : FetchResult) (dbAvailable : Bool) (ok : Nat → Bool)
    (now : String) (sheet : List LedgerRow) : RunTrace :=
  match resolveTarget m year with
  | ResolveOutcome.missingMapping =>
      { fetchCalls := 0, sheet := sheet, exitCode := 0 }
  | ResolveOutcome.noEntryForYear _ =>
      { fetchCalls := 0, sheet := sheet, exitCode := 0 }
  | ResolveOutcome.resolved _ =>
      let statuses := getWaitTimeData GRAND_FLORIDIAN_FACILITIES r
      let written := logDataToSheet dbAvailable ok now sheet statuses
      { fetchCalls := 1, sheet := written.1, exitCode := 0 }

/-- The fixed tab name `FIXED_SHEET_TAB_NAME` of `src/unnamed/part_000`
line 18. -/
def FIXED_SHEET_TAB_NAME : String := "Disney_Dining"

/-- The fixed header row: the LedgerRow field names in the order of
`src/unnamed/part_000` lines 66-73. -/
def LEDGER_HEADER : List String :=
  ["DateTime", "FacilityID", "Name", "WaitTimeMinutes", "WaitTimeStatus",
   "ReservationAvailability"]

/-- One tab of the ledger document: a name and its rows (the header, when
present, is the first row). -/
structure LedgerTab where
  name : String
  rows : List (List String)
  deriving DecidableEq, Repr

/-- Modelled from the spec: the tab-existence check and header creation of
spec section 4.3 step 2.  This behavior lives inside the `google-sheet-db`
dependency, which is absent from src/ — `getSheetInstance`
(`src/unnamed/part_000` lines 43-60) only passes `sheetId`, `sheetName` and
`credentials` to its constructor.  Per the spec: load the ledger's tab
list; if the fixed tab name does not exist, create it and write the fixed
header row; otherwise leave the ledger untouched. -/
def ensureTab (tabName : String) (tabs : List LedgerTab) : List LedgerTab :=
  match tabs.find? (fun t => t.name = tabName) with
  | some _ => tabs
  | none => tabs ++ [{ name := tabName, rows := [LEDGER_HEADER] }]

/-! Helper lemmas shared by the claim theorems. -/

theorem statusForFacility_id_name (entries : List LiveEntry) (f : FacilityRef) :
    (statusForFacility entries f).FacilityID = f.id ∧
    (statusForFacility entries f).Name = f.name := by
  unfold statusForFacility
  split
  · simp
  · split
    · simp
    · split
      · split <;> simp
      · simp

theorem liveDataLookup_eq_none (entries : List LiveEntry) (eid : String)
    (h : ∀ e ∈ entries, e.entityId ≠ eid) : liveDataLookup entries eid = none := by
  unfold liveDataLookup
  have hfil : entries.filter (fun e => e.entityId = eid) = [] := by
    rw [List.filter_eq_nil_iff]
    intro a ha
    simp [h a ha]
  rw [hfil]
  rfl

/-- A concrete standby sub-record carrying a negative wait value. -/
def standbyNegFive : StandbyRec := { waitTime := some (-5), status := some "OPERATING" }

/-- A concrete live entry for the Grand Floridian Cafe id whose standby
queue reports a wait of -5 minutes. -/
def entryNegFive : LiveEntry :=
  { entityId := "80010375", queue := some { STANDBY := some standbyNegFive }, status := none }

/-- A concrete successful response body containing only `entryNegFive`. -/
def bodyNegFive : ApiBody := { liveData := some [entryNegFive] }

/-- A concrete upstream facility entry for Space Mountain only, used to
exercise the disney_reporter.js variant on a response that omits the four
restaurants. -/
def spaceMountainOnlyEntry : DR.FacilityEntry :=
  { id := "16975815", waitTime := some { activeWaitTime := some 30, status := some "OPERATING" } }

/-- C1 (amended, part holding on the code): for the ThemeParks.wiki variant
(`getWaitTimeData` in `src/unnamed/part_000`), for every catalog and every
upstream outcome — transport error, any response flag, any body — the
result has exactly `catalog.length` FacilityStatus records, one per catalog
entry, carrying the catalog ids and names in catalog order; the embedding
is a total function, matching "never throws to its caller". -/
theorem getWaitTimeData_length_and_order (catalog : List FacilityRef) (r : FetchResult) :
    (getWaitTimeData catalog r).length = catalog.length ∧
    (getWaitTimeData catalog r).map (fun s => (s.FacilityID, s.Name)) =
      catalog.map (fun f => (f.id, f.name)) := by
  have key : ∀ (entries : List LiveEntry) (f : FacilityRef),
      ((statusForFacility entries f).FacilityID, (statusForFacility entries f).Name) =
        (f.id, f.name) := by
    intro entries f
    have h := statusForFacility_id_name entries f
    rw [h.1, h.2]
  cases r with
  | transportError => simp [getWaitTimeData, errorRows]
  | response ok body =>
      cases ok with
      | false => simp [getWaitTimeData, errorRows]
      | true =>
          cases body with
          | none => simp [getWaitTimeData, errorRows]
          | some data =>
              refine ⟨by simp [getWaitTimeData], ?_⟩
              show (catalog.map (statusForFacility (data.liveData.getD []))).map
                  (fun s => (s.FacilityID, s.Name)) = catalog.map (fun f => (f.id, f.name))
              rw [List.map_map]
              exact List.map_congr_left (fun f _ => key _ f)

/-- C1 (counterexample): the themeparks-library variant (`getWaitTimeData`
in `src/disney_reporter.js`), also cited by the claim, violates it — with
the 5-entry configured catalog and a successful upstream call whose
facilities array omits every tracked id, it returns 0 records instead of
5 (rows for facilities absent from the response are dropped, lines
127-129). -/
theorem dr_getWaitTimeData_drops_rows :
    DR.getWaitTimeData true GRAND_FLORIDIAN_FACILITIES (fun _ => DR.FetchOutcome.ok []) =
      Except.ok [] ∧ GRAND_FLORIDIAN_FACILITIES.length = 5 :=
  ⟨rfl, rfl⟩

/-- C2: for the single-fetch variant (`src/unnamed/part_000`), if the
upstream request fails — transport rejection, a non-2xx response (any
body), or an unparseable body — the result is exactly the catch-branch
rows, and every one of those rows carries the `API_ERROR` sentinel (the
spec's SOURCE_ERROR) with wait 0: uniform total fallback, no partial
degradation. -/
theorem getWaitTimeData_total_fallback (catalog : List FacilityRef) (body : Option ApiBody) :
    getWaitTimeData catalog FetchResult.transportError = errorRows catalog ∧
    getWaitTimeData catalog (FetchResult.response false body) = errorRows catalog ∧
    ∀ s ∈ errorRows catalog, s.WaitTimeStatus = "API_ERROR" ∧ s.WaitTimeMinutes = 0 := by
  refine ⟨rfl, rfl, ?_⟩
  intro s hs
  unfold errorRows at hs
  rcases List.mem_map.mp hs with ⟨f, _, rfl⟩
  exact ⟨rfl, rfl⟩

/-- C2 witness: the first fallback row of the configured catalog, produced
by a transport error, evaluated concretely. -/
theorem getWaitTimeData_total_fallback_witness :
    ({ FacilityID := "80010375", Name := "Grand Floridian Cafe", WaitTimeMinutes := 0,
       WaitTimeStatus := "API_ERROR" } : FacilityStatus).WaitTimeStatus = "API_ERROR" ∧
    ({ FacilityID := "80010375", Name := "Grand Floridian Cafe", WaitTimeMinutes := 0,
       WaitTimeStatus := "API_ERROR" } : FacilityStatus).WaitTimeMinutes = 0 :=
  (getWaitTimeData_total_fallback GRAND_FLORIDIAN_FACILITIES none).2.2 _
    (List.mem_map.mpr ⟨{ name := "Grand Floridian Cafe", id := "80010375" },
      List.Mem.head _, rfl⟩)

/-- C3 (amended, part holding on the code): for the ThemeParks.wiki variant
(`src/unnamed/part_000`), if the upstream call succeeds but the `liveData`
array has no entry for a catalog facility's id, that facility's record is
still present at its catalog position with statusCode `UNKNOWN` and wait 0
— not an error row and not dropped. -/
theorem getWaitTimeData_omitted_is_unknown (catalog : List FacilityRef) (data : ApiBody)
    (i : Nat) (f : FacilityRef) (hf : catalog[i]? = some f)
    (habsent : ∀ e ∈ data.liveData.getD [], e.entityId ≠ f.id) :
    (getWaitTimeData catalog (FetchResult.response true (some data)))[i]? =
      some { FacilityID := f.id, Name := f.name, WaitTimeMinutes := 0,
             WaitTimeStatus := "UNKNOWN" } := by
  have hnone := liveDataLookup_eq_none _ _ habsent
  show (catalog.map (statusForFacility (data.liveData.getD [])))[i]? = _
  rw [List.getElem?_map, hf]
  simp [statusForFacility, hnone]

/-- C3 witness: with the configured catalog and a successful response whose
liveData array is empty, position 0 is the UNKNOWN record for the Grand
Floridian Cafe. -/
theorem getWaitTimeData_omitted_is_unknown_witness :
    (getWaitTimeData GRAND_FLORIDIAN_FACILITIES
        (FetchResult.response true (some { liveData := some [] })))[0]? =
      some { FacilityID := "80010375", Name := "Grand Floridian Cafe",
             WaitTimeMinutes := 0, WaitTimeStatus := "UNKNOWN" } :=
  getWaitTimeData_omitted_is_unknown GRAND_FLORIDIAN_FACILITIES { liveData := some [] } 0
    { name := "Grand Floridian Cafe", id := "80010375" } rfl (by simp)

/-- C3 (counterexample): the themeparks-library variant
(`src/disney_reporter.js` lines 113-129), also cited by the claim, violates
it — on a successful call whose facilities array contains only Space
Mountain, the four omitted restaurants are dropped from the result (only a
console warning is emitted), instead of being reported as UNKNOWN. -/
theorem dr_omitted_facility_dropped :
    DR.getWaitTimeData true GRAND_FLORIDIAN_FACILITIES
        (fun _ => DR.FetchOutcome.ok [spaceMountainOnlyEntry]) =
      Except.ok [{ FacilityID := "16975815", Name := "Space Mountain (MK)",
                   WaitTimeMinutes := 30, WaitTimeStatus := some "OPERATING" }] ∧
    ({ name := "Grand Floridian Cafe", id := "80010375" } : FacilityRef) ∈
      GRAND_FLORIDIAN_FACILITIES :=
  ⟨rfl, List.Mem.head _⟩

/-- C4 (amended): for a facility whose looked-up entry carries a
standby-queue sub-record (`src/unnamed/part_000` lines 114-117), the
returned record has `waitMinutes = STANDBY.waitTime || 0` and
`statusCode = STANDBY.status || OPERATING`; a missing wait value yields 0,
a present nonzero wait value — negative ones included — is passed through
unchanged (negative values are NOT clamped to 0), a present non-empty
status is used, and a missing status yields OPERATING. -/
theorem getWaitTimeData_standby_branch (catalog : List FacilityRef) (data : ApiBody)
    (i : Nat) (f : FacilityRef) (entry : LiveEntry) (sb : StandbyRec)
    (hf : catalog[i]? = some f)
    (he : liveDataLookup (data.liveData.getD []) f.id = some entry)
    (hq : entry.queue.bind QueueRec.STANDBY = some sb) :
    (getWaitTimeData catalog (FetchResult.response true (some data)))[i]? =
      some { FacilityID := f.id, Name := f.name,
             WaitTimeMinutes := jsOrNum sb.waitTime 0,
             WaitTimeStatus := jsOrStr sb.status "OPERATING" } ∧
    (sb.waitTime = none → jsOrNum sb.waitTime 0 = 0) ∧
    (∀ w : Int, sb.waitTime = some w → w ≠ 0 → jsOrNum sb.waitTime 0 = w) ∧
    (∀ s : String, sb.status = some s → s ≠ "" → jsOrStr sb.status "OPERATING" = s) ∧
    (sb.status = none → jsOrStr sb.status "OPERATING" = "OPERATING") := by
  refine ⟨?_, ?_, ?_, ?_, ?_⟩
  · show (catalog.map (statusForFacility (data.liveData.getD [])))[i]? = _
    rw [List.getElem?_map, hf]
    simp [statusForFacility, he, hq]
  · intro h
    simp [jsOrNum, h]
  · intro w hw hw0
    simp [jsOrNum, hw, hw0]
  · intro s hs hs0
    simp [jsOrStr, hs, hs0]
  · intro h
    simp [jsOrStr, h]

/-- C4 witness: the standby branch evaluated at the concrete entry whose
standby wait is -5 and status OPERATING. -/
theorem getWaitTimeData_standby_branch_witness :
    (getWaitTimeData [{ name := "Grand Floridian Cafe", id := "80010375" }]
        (FetchResult.response true (some bodyNegFive)))[0]? =
      some { FacilityID := "80010375", Name := "Grand Floridian Cafe",
             WaitTimeMinutes := jsOrNum standbyNegFive.waitTime 0,
             WaitTimeStatus := jsOrStr standbyNegFive.status "OPERATING" } :=
  (getWaitTimeData_standby_branch [{ name := "Grand Floridian Cafe", id := "80010375" }]
    bodyNegFive 0 { name := "Grand Floridian Cafe", id := "80010375" }
    entryNegFive standbyNegFive rfl rfl rfl).1

/-- C4 (counterexample): the claim says a negative standby wait value is
treated as 0, but JavaScript `waitTime || 0` only replaces falsy values —
-5 is truthy — so a standby wait of -5 is returned as -5, not 0. -/
theorem negative_wait_not_clamped :
    getWaitTimeData [{ name := "Grand Floridian Cafe", id := "80010375" }]
      (FetchResult.response true (some bodyNegFive)) =
      [{ FacilityID := "80010375", Name := "Grand Floridian Cafe",
         WaitTimeMinutes := -5, WaitTimeStatus := "OPERATING" }] :=
  rfl

/-- C10: if a facility's id is found in a successful response but its entry
has no standby-queue sub-record (no `queue` or no `queue.STANDBY`) and no
top-level `status` field, the record at its catalog position is UNKNOWN
with wait 0; and this is identical to what `statusForFacility` produces for
a facility whose id is absent from the response entirely. -/
theorem getWaitTimeData_bare_entry_is_unknown (catalog : List FacilityRef) (data : ApiBody)
    (i : Nat) (f : FacilityRef) (entry : LiveEntry)
    (hf : catalog[i]? = some f)
    (hfound : liveDataLookup (data.liveData.getD []) f.id = some entry)
    (hq : entry.queue.bind QueueRec.STANDBY = none)
    (hs : entry.status = none) :
    (getWaitTimeData catalog (FetchResult.response true (some data)))[i]? =
      some { FacilityID := f.id, Name := f.name, WaitTimeMinutes := 0,
             WaitTimeStatus := "UNKNOWN" } ∧
    ∀ entries2 : List LiveEntry, (∀ e ∈ entries2, e.entityId ≠ f.id) →
      statusForFacility entries2 f =
        { FacilityID := f.id, Name := f.name, WaitTimeMinutes := 0,
          WaitTimeStatus := "UNKNOWN" } := by
  constructor
  · show (catalog.map (statusForFacility (data.liveData.getD [])))[i]? = _
    rw [List.getElem?_map, hf]
    simp [statusForFacility, hfound, hq, hs]
  · intro entries2 h2
    have hnone := liveDataLookup_eq_none _ _ h2
    simp [statusForFacility, hnone]

/-- C10 witness: a concrete successful response whose only entry carries
the Grand Floridian Cafe id but neither a queue nor a status. -/
theorem getWaitTimeData_bare_entry_is_unknown_witness :
    (getWaitTimeData [{ name := "Grand Floridian Cafe", id := "80010375" }]
        (FetchResult.response true
          (some { liveData := some [{ entityId := "80010375", queue := none,
                                      status := none }] })))[0]? =
      some { FacilityID := "80010375", Name := "Grand Floridian Cafe",
             WaitTimeMinutes := 0, WaitTimeStatus := "UNKNOWN" } :=
  (getWaitTimeData_bare_entry_is_unknown [{ name := "Grand Floridian Cafe", id := "80010375" }]
    { liveData := some [{ entityId := "80010375", queue := none, status := none }] } 0
    { name := "Grand Floridian Cafe", id := "80010375" }
    { entityId := "80010375", queue := none, status := none } rfl rfl rfl rfl).1

/-- C5: with mapping 2025 to ID1, resolution at year 2025 yields sheet id
ID1; at year 2026 it fails with the fatal message that names the missing
year 2026 (shown verbatim); and in that failure case `runReport` issues no
fetch and performs no write, whatever the would-be upstream outcome and
sheet state. -/
theorem resolveTarget_year_examples :
    resolveTarget (some [("2025", "ID1")]) "2025" = ResolveOutcome.resolved "ID1" ∧
    resolveTarget (some [("2025", "ID1")]) "2026" =
      ResolveOutcome.noEntryForYear (fatalNoYearMsg "2026") ∧
    fatalNoYearMsg "2026" =
      "FATAL ERROR: No Sheet ID found for current year (2026). \n            Please manually create the Google Sheet for this year and update the \n            YEARLY_SHEET_IDS secret in GitHub." ∧
    ∀ (r : FetchResult) (db : Bool) (ok : Nat → Bool) (now : String)
      (sheet : List LedgerRow),
      (runReport (some [("2025", "ID1")]) "2026" r db ok now sheet).fetchCalls = 0 ∧
      (runReport (some [("2025", "ID1")]) "2026" r db ok now sheet).sheet = sheet := by
  refine ⟨rfl, rfl, rfl, ?_⟩
  intro r db ok now sheet
  exact ⟨rfl, rfl⟩

/-- C9: a mapping whose entry for the current year is the empty string (the
falsy value a JSON string can take) fails exactly like an absent key —
`!YEARLY_SHEET_IDS_MAP[currentYear]` is true for both — producing the same
fatal message naming the year; and no resolution ever yields an empty
sheet id. -/
theorem resolveTarget_falsy_entry (m m2 : List (String × String)) (year : String)
    (h : lookupYear m year = some "") (h2 : lookupYear m2 year = none) :
    resolveTarget (some m) year = ResolveOutcome.noEntryForYear (fatalNoYearMsg year) ∧
    resolveTarget (some m) year = resolveTarget (some m2) year ∧
    ∀ (mp : List (String × String)) (s : String),
      resolveTarget (some mp) year = ResolveOutcome.resolved s → s ≠ "" := by
  refine ⟨?_, ?_, ?_⟩
  · simp [resolveTarget, h]
  · simp [resolveTarget, h, h2]
  · intro mp s hres
    cases hl : lookupYear mp year with
    | none => simp [resolveTarget, hl] at hres
    | some v =>
        simp only [resolveTarget, hl] at hres
        by_cases hv : v = ""
        · rw [if_pos hv] at hres
          simp at hres
        · rw [if_neg hv] at hres
          injection hres with hvs
          subst hvs
          exact hv

/-- C9 witness: a mapping carrying 2026 with an empty sheet id resolves to
the same noEntryForYear failure as the empty mapping. -/
theorem resolveTarget_falsy_entry_witness :
    resolveTarget (some [("2026", "")]) "2026" =
      ResolveOutcome.noEntryForYear (fatalNoYearMsg "2026") :=
  (resolveTarget_falsy_entry [("2026", "")] [] "2026" rfl rfl).1

/-- C6 (amended, part holding on the code): when the year mapping is
malformed or absent (the parsed map is falsy), the run terminates before
any HTTP call — zero fetches, the sheet untouched — but the process exit
status is 0, not non-zero: every failure path only logs and returns. -/
theorem runReport_malformed_mapping_no_network (year : String) (r : FetchResult) (db : Bool)
    (ok : Nat → Bool) (now : String) (sheet : List LedgerRow) :
    (runReport none year r db ok now sheet).fetchCalls = 0 ∧
    (runReport none year r db ok now sheet).sheet = sheet ∧
    (runReport none year r db ok now sheet).exitCode = 0 :=
  ⟨rfl, rfl, rfl⟩

/-- C6 (counterexample): the claim requires a non-zero exit status when the
mapping JSON is malformed, but the script never calls `process.exit` and
`runReport` handles all its error paths by logging and returning, so the
node process exits with status 0. -/
theorem runReport_malformed_mapping_exit_zero :
    (runReport none "2025" FetchResult.transportError true (fun _ => true) "t" []).exitCode = 0 :=
  rfl

/-! Lemmas about the insertion loop of `logDataToSheet`. -/

theorem insertLoop_all_ok (ok : Nat → Bool) (rows : List LedgerRow) :
    ∀ (k : Nat) (sheet : List LedgerRow),
      (∀ j, j < rows.length → ok (k + j) = true) →
      insertLoop ok k sheet rows = (sheet ++ rows, none) := by
  induction rows with
  | nil =>
      intro k sheet _
      simp [insertLoop]
  | cons r rs ih =>
      intro k sheet h
      have hk : ok k = true := by simpa using h 0 (Nat.succ_pos _)
      have hrec : insertLoop ok (k + 1) (sheet ++ [r]) rs = ((sheet ++ [r]) ++ rs, none) := by
        refine ih (k + 1) (sheet ++ [r]) (fun j hj => ?_)
        have e : k + 1 + j = k + (j + 1) := by omega
        rw [e]
        exact h (j + 1) (by simp only [List.length_cons]; omega)
      simp only [insertLoop, hk, if_true, hrec]
      simp

theorem insertLoop_fail_at (ok : Nat → Bool) (rows : List LedgerRow) :
    ∀ (k : Nat) (sheet : List LedgerRow) (i : Nat),
      i < rows.length →
      (∀ j, j < i → ok (k + j) = true) →
      ok (k + i) = false →
      insertLoop ok k sheet rows = (sheet ++ rows.take i, some (k + i)) := by
  induction rows with
  | nil =>
      intro k sheet i hi _ _
      simp at hi
  | cons r rs ih =>
      intro k sheet i hi hprev hfail
      cases i with
      | zero =>
          have hk : ok k = false := by simpa using hfail
          simp [insertLoop, hk]
      | succ n =>
          have hk : ok k = true := by simpa using hprev 0 (Nat.succ_pos _)
          have e : k + 1 + n = k + (n + 1) := by omega
          have hrec : insertLoop ok (k + 1) (sheet ++ [r]) rs =
              ((sheet ++ [r]) ++ rs.take n, some (k + 1 + n)) := by
            refine ih (k + 1) (sheet ++ [r]) n
              (by simp only [List.length_cons] at hi; omega)
              (fun j hj => ?_) (by rw [e]; exact hfail)
            have e2 : k + 1 + j = k + (j + 1) := by omega
            rw [e2]
            exact hprev (j + 1) (by omega)
          simp only [insertLoop, hk, if_true, hrec, e]
          simp

/-- C7: with a resolved target (`dbAvailable = true`), `logDataToSheet`
appends exactly `data.length` new trailing rows in input order when every
insert succeeds, leaving the previously written rows as an unchanged
prefix; and if the k-th insert is the first to fail, exactly the first k
rows were appended in order and the remaining rows of the run are aborted
— no reordering, no skip-and-continue. -/
theorem logDataToSheet_appends_in_order (ok : Nat → Bool) (now : String)
    (sheet : List LedgerRow) (data : List FacilityStatus) :
    ((∀ k, k < data.length → ok k = true) →
      logDataToSheet true ok now sheet data =
        (sheet ++ data.map (toLedgerRow now), none)) ∧
    (∀ k, k < data.length → (∀ j, j < k → ok j = true) → ok k = false →
      logDataToSheet true ok now sheet data =
        (sheet ++ (data.map (toLedgerRow now)).take k, some k)) := by
  constructor
  · intro h
    show insertLoop ok 0 sheet (data.map (toLedgerRow now)) = _
    refine insertLoop_all_ok ok _ 0 sheet (fun j hj => ?_)
    simpa using h j (by simpa using hj)
  · intro k hk hprev hfail
    show insertLoop ok 0 sheet (data.map (toLedgerRow now)) = _
    have := insertLoop_fail_at ok (data.map (toLedgerRow now)) 0 sheet k
      (by simpa using hk) (fun j hj => by simpa using hprev j hj) (by simpa using hfail)
    simpa using this

/-- C7 witness: all five fallback statuses of the configured catalog are
appended to an empty sheet in order when every insert succeeds. -/
theorem logDataToSheet_appends_in_order_witness :
    logDataToSheet true (fun _ => true) "t" [] (errorRows GRAND_FLORIDIAN_FACILITIES) =
      ([] ++ (errorRows GRAND_FLORIDIAN_FACILITIES).map (toLedgerRow "t"), none) :=
  (logDataToSheet_appends_in_order (fun _ => true) "t" []
    (errorRows GRAND_FLORIDIAN_FACILITIES)).1 (fun _ _ => rfl)

/-- C8: the writer's tab-preparation step (modelled from the spec, see
`ensureTab`) creates the fixed tab with exactly the fixed header row when
it is absent; when the tab already exists it is an exact no-op — the
ledger, header included, is returned unchanged; and the whole step is
idempotent, so it happens at most once per ledger lifetime. -/
theorem ensureTab_creates_once (tabName : String) (tabs : List LedgerTab) :
    (tabs.find? (fun t => t.name = tabName) = none →
      ensureTab tabName tabs =
        tabs ++ [{ name := tabName, rows := [LEDGER_HEADER] }]) ∧
    (∀ t, tabs.find? (fun t2 => t2.name = tabName) = some t →
      ensureTab tabName tabs = tabs) ∧
    ensureTab tabName (ensureTab tabName tabs) = ensureTab tabName tabs := by
  refine ⟨?_, ?_, ?_⟩
  · intro h
    simp [ensureTab, h]
  · intro t ht
    simp [ensureTab, ht]
  · cases h : tabs.find? (fun t => t.name = tabName) with
    | some t => simp [ensureTab, h]
    | none =>
        have h1 : ensureTab tabName tabs =
            tabs ++ [{ name := tabName, rows := [LEDGER_HEADER] }] := by
          simp [ensureTab, h]
        rw [h1]
        have h2 : List.find? (fun t => t.name = tabName)
            (tabs ++ [({ name := tabName, rows := [LEDGER_HEADER] } : LedgerTab)]) =
            some { name := tabName, rows := [LEDGER_HEADER] } := by
          rw [List.find?_append, h]
          simp [List.find?]
        simp [ensureTab, h2]

/-- C8 witness: on an empty ledger the fixed tab is created with the fixed
header row. -/
theorem ensureTab_creates_once_witness :
    ensureTab FIXED_SHEET_TAB_NAME [] =
      [] ++ [{ name := FIXED_SHEET_TAB_NAME, rows := [LEDGER_HEADER] }] :=
  (ensureTab_creates_once FIXED_SHEET_TAB_NAME []).1 rfl

end DisneyReporter
